import Mathlib

/-!
# Verification of the NovAtel OEM7 driver INS handler

Shallow embedding of `src/src/novatel_oem7_driver/src/ins_handler.cpp`
(class `INSHandler`). C++ `double` arithmetic is modelled over `ℝ`;
C++ `int` (`imu_rate_t`) over `ℤ`; `unsigned int` (`imu_type_t`) over `ℕ`.
The ROS parameter server and the publisher enable flags are modelled as a
read-only environment (`RosParams`, `PubConfig`); every externally visible
action (publication, log call, parameter lookup) is recorded as an `Event`
so that traces of the handler can be reasoned about. A C++ exception
(`std::stoi` on a non-numeric string throws `std::invalid_argument`) is
modelled with `Except`.
-/

namespace NovatelOem7

/-- Quaternion as stored by `tf2::Quaternion` / `geometry_msgs::Quaternion`:
four `double` components. -/
@[ext] structure Quat where
  x : ℝ
  y : ℝ
  z : ℝ
  w : ℝ

/-- Three-component vector (`geometry_msgs::Vector3`). -/
@[ext] structure Vector3 where
  x : ℝ
  y : ℝ
  z : ℝ

/-- Fields of `novatel_oem7_msgs::INSPVA` used by the handler. -/
structure INSPVA where
  roll : ℝ
  pitch : ℝ
  azimuth : ℝ

/-- Fields of `novatel_oem7_msgs::CORRIMU` (also the decoded form of
`IMURATECORRIMU`) used by the handler. -/
structure CORRIMU where
  pitch_rate : ℝ
  roll_rate : ℝ
  yaw_rate : ℝ
  lateral_acc : ℝ
  longitudinal_acc : ℝ
  vertical_acc : ℝ

/-- Fields of `novatel_oem7_msgs::INSSTDEV` used by the handler. -/
structure INSSTDEV where
  pitch_stdev : ℝ
  roll_stdev : ℝ
  azimuth_stdev : ℝ

/-- Fields of `novatel_oem7_msgs::INSCONFIG` used by the handler
(`imu_type` models the `imu_type_t` = `unsigned int` field). -/
structure INSCONFIG where
  imu_type : ℕ

/-- Opaque payload of `novatel_oem7_msgs::INSPVAX`: the handler only
passes it through, never inspecting a field. -/
structure INSPVAX where
  payload : ℤ

/-- The `sensor_msgs::Imu` message. A fresh message (`new sensor_msgs::Imu`)
is zero-initialized, covariance rows are 9-element `double` arrays. -/
structure ImuMsg where
  orientation : Quat
  orientation_covariance : Fin 9 → ℝ
  angular_velocity : Vector3
  angular_velocity_covariance : Fin 9 → ℝ
  linear_acceleration : Vector3
  linear_acceleration_covariance : Fin 9 → ℝ

/-- Default-constructed `sensor_msgs::Imu`: everything zero. -/
noncomputable def defaultImu : ImuMsg :=
  { orientation := ⟨0, 0, 0, 0⟩
    orientation_covariance := fun _ => 0
    angular_velocity := ⟨0, 0, 0⟩
    angular_velocity_covariance := fun _ => 0
    linear_acceleration := ⟨0, 0, 0⟩
    linear_acceleration_covariance := fun _ => 0 }

/-- The decoded inbound messages, one constructor per message id the
handler subscribes to (`getMessageIds`): `INSPVAS`, `INSSTDEV`, `CORRIMUS`,
`IMURATECORRIMUS`, `INSCONFIG`, `INSPVAX`. -/
inductive Msg
  | inspva (m : INSPVA)
  | insstdev (m : INSSTDEV)
  | corrimu (m : CORRIMU)
  | imuratecorrimu (m : CORRIMU)
  | insconfig (m : INSCONFIG)
  | inspvax (m : INSPVAX)

/-- Externally visible actions of the handler, in program order. -/
inductive Event
  | pubINSPVAX (m : INSPVAX)
  | pubCORRIMU (m : CORRIMU)
  | pubINSSTDEV (m : INSSTDEV)
  | pubINSCONFIG (m : INSCONFIG)
  | pubImu (m : ImuMsg)
  | paramLookup (imu_type : ℕ) (pname : String)
  | logFatal
  | logError
  | logInfo
  | logDebug
  | warnThrottle

/-- C++ exceptions that can escape the handler: `std::stoi` throws
`std::invalid_argument` when no digits can be parsed. -/
inductive CppError
  | invalidArgument

/-- Read-only environment: the ROS parameter server as seen by the
handler. `imuParam t n` models `getParam(ns + "/supported_imus/" + t + "/" + n, out)`
(`some v` when the parameter exists, `none` when the lookup fails);
`imu_rate_override` models the optional `imu_rate` parameter read in
`initialize` (`nh.getParam("imu_rate", imu_rate_)`). -/
structure RosParams where
  imuParam : ℕ → String → Option String
  imu_rate_override : Option ℤ

/-- Publisher configuration: `imu_pub_.isEnabled()` is the only enable
flag the handler code consults explicitly. -/
structure PubConfig where
  imuEnabled : Bool

/-- Mutable state of `INSHandler`: the three cached messages
(`boost::shared_ptr`, null until first assignment) and `imu_rate_`. -/
structure INSHandler where
  inspva : Option INSPVA
  corrimu : Option CORRIMU
  insstdev : Option INSSTDEV
  imu_rate : ℤ

/-- State after the constructor `INSHandler(): imu_rate_(0)`: null caches,
rate 0. -/
def initState : INSHandler :=
  { inspva := none, corrimu := none, insstdev := none, imu_rate := 0 }

/-- Numeric value of a list of decimal digit characters. -/
def digitsVal (cs : List Char) : ℕ :=
  cs.foldl (fun acc c => acc * 10 + (c.toNat - '0'.toNat)) 0

/-- Model of `std::stoi`: skip leading whitespace, accept one optional
sign, then require at least one decimal digit (parsing the longest digit
prefix); throw `std::invalid_argument` otherwise. The C++ `int` range
check (`std::out_of_range`) is not modelled; all values in this
development are tiny. -/
def stoi (s : String) : Except CppError ℤ :=
  let cs := s.data.dropWhile Char.isWhitespace
  match cs with
  | '-' :: rest =>
      let ds := rest.takeWhile Char.isDigit
      if ds.isEmpty then .error .invalidArgument else .ok (-(digitsVal ds : ℤ))
  | '+' :: rest =>
      let ds := rest.takeWhile Char.isDigit
      if ds.isEmpty then .error .invalidArgument else .ok (digitsVal ds : ℤ)
  | rest =>
      let ds := rest.takeWhile Char.isDigit
      if ds.isEmpty then .error .invalidArgument else .ok (digitsVal ds : ℤ)

/-- `INSHandler::getImuParam`: look up `supported_imus/<type>/<name>`; on
failure log `ROS_FATAL_STREAM("INS: IMU type= ... is not supported.")` and
leave the output string unchanged (both call sites pass a
default-constructed, i.e. empty, string). -/
def getImuParam (p : RosParams) (t : ℕ) (n : String) : String × List Event :=
  match p.imuParam t n with
  | some v => (v, [Event.paramLookup t n])
  | none => ("", [Event.paramLookup t n, Event.logFatal])

/-- `INSHandler::getImuRate`: read the `rate` parameter and convert it
with `std::stoi` (which throws on an empty or non-numeric string). -/
def getImuRate (p : RosParams) (t : ℕ) : Except CppError ℤ × List Event :=
  let r := getImuParam p t "rate"
  (stoi r.1, r.2)

/-- `INSHandler::processInsConfigMsg`: publish the decoded `INSCONFIG`;
then, only while `imu_rate_ == 0`, read the IMU description and rate from
the parameter table and store the rate, logging at Error level when the
resolved rate is 0 and at Info level otherwise. A `stoi` exception
propagates out after the publication and the fatal log have happened. -/
def processInsConfigMsg (p : RosParams) (s : INSHandler) (c : INSCONFIG) :
    List Event × Except CppError INSHandler :=
  let pub := [Event.pubINSCONFIG c]
  if s.imu_rate = 0 then
    let d := getImuParam p c.imu_type "name"
    let r := getImuRate p c.imu_type
    match r.1 with
    | .error e => (pub ++ d.2 ++ r.2, .error e)
    | .ok n =>
        (pub ++ d.2 ++ r.2 ++ [if n = 0 then Event.logError else Event.logInfo],
         .ok { s with imu_rate := n })
  else (pub, .ok s)

/-- `degreesToRadians` from the source: `degrees * M_PI / 180.0`. -/
noncomputable def degreesToRadians (degrees : ℝ) : ℝ :=
  degrees * Real.pi / 180

/-- `DATA_NOT_AVAILABLE` from the source: sentinel used to initialize
unpopulated covariance fields. -/
noncomputable def DATA_NOT_AVAILABLE : ℝ := -1.0

/-- `tf2::Quaternion::setRPY(roll, pitch, yaw)`, the external library
routine called by `publishImuMsg` (its documented and well-known formula:
half-angle sines/cosines combined per fixed-axis roll-pitch-yaw order). -/
noncomputable def setRPY (roll pitch yaw : ℝ) : Quat :=
  ⟨Real.sin (roll * 0.5) * Real.cos (pitch * 0.5) * Real.cos (yaw * 0.5) -
     Real.cos (roll * 0.5) * Real.sin (pitch * 0.5) * Real.sin (yaw * 0.5),
   Real.cos (roll * 0.5) * Real.sin (pitch * 0.5) * Real.cos (yaw * 0.5) +
     Real.sin (roll * 0.5) * Real.cos (pitch * 0.5) * Real.sin (yaw * 0.5),
   Real.cos (roll * 0.5) * Real.cos (pitch * 0.5) * Real.sin (yaw * 0.5) -
     Real.sin (roll * 0.5) * Real.sin (pitch * 0.5) * Real.cos (yaw * 0.5),
   Real.cos (roll * 0.5) * Real.cos (pitch * 0.5) * Real.cos (yaw * 0.5) +
     Real.sin (roll * 0.5) * Real.sin (pitch * 0.5) * Real.sin (yaw * 0.5)⟩

/-- Hamilton product of two quaternions (spec-side definition, used to
state what "rotation about X by roll, then Y, then Z" composes to). -/
noncomputable def qmul (a b : Quat) : Quat :=
  ⟨a.w * b.x + a.x * b.w + a.y * b.z - a.z * b.y,
   a.w * b.y - a.x * b.z + a.y * b.w + a.z * b.x,
   a.w * b.z + a.x * b.y - a.y * b.x + a.z * b.w,
   a.w * b.w - a.x * b.x - a.y * b.y - a.z * b.z⟩

/-- Unit quaternion of a rotation by `t` about the X axis (spec-side). -/
noncomputable def quatAxisAngleX (t : ℝ) : Quat :=
  ⟨Real.sin (t / 2), 0, 0, Real.cos (t / 2)⟩

/-- Unit quaternion of a rotation by `t` about the Y axis (spec-side). -/
noncomputable def quatAxisAngleY (t : ℝ) : Quat :=
  ⟨0, Real.sin (t / 2), 0, Real.cos (t / 2)⟩

/-- Unit quaternion of a rotation by `t` about the Z axis (spec-side). -/
noncomputable def quatAxisAngleZ (t : ℝ) : Quat :=
  ⟨0, 0, Real.sin (t / 2), Real.cos (t / 2)⟩

/-- Squared norm of a quaternion. -/
noncomputable def quatNormSq (q : Quat) : ℝ :=
  q.x ^ 2 + q.y ^ 2 + q.z ^ 2 + q.w ^ 2

/-- The `else` arm shared by both failing preconditions in
`publishImuMsg`: only entry 0 of each of the two motion covariance rows is
set, to `DATA_NOT_AVAILABLE`. -/
noncomputable def sentinelCov (m : ImuMsg) : ImuMsg :=
  { m with
      angular_velocity_covariance := fun i =>
        if i = 0 then DATA_NOT_AVAILABLE else m.angular_velocity_covariance i
      linear_acceleration_covariance := fun i =>
        if i = 0 then DATA_NOT_AVAILABLE else m.linear_acceleration_covariance i }

/-- Body of `INSHandler::publishImuMsg` after the enable check and the
`inspva_` null check: the composed `sensor_msgs::Imu` message, built from
a zero-initialized message by the three conditional blocks of the source
(orientation from the cached INSPVA; orientation covariance from the
cached INSSTDEV if any; scaled rates/accelerations when a CORRIMU is
cached and `imu_rate_ > 0`, sentinel covariance otherwise). -/
noncomputable def composeImuMsg (s : INSHandler) (pva : INSPVA) : ImuMsg :=
  let imu1 : ImuMsg :=
    { defaultImu with
        orientation := setRPY (degreesToRadians pva.roll)
                              (-(degreesToRadians pva.pitch))
                              (-(degreesToRadians pva.azimuth)) }
  let imu2 : ImuMsg :=
    match s.insstdev with
    | some sd =>
        { imu1 with
            orientation_covariance := fun i =>
              if i = 0 then sd.pitch_stdev ^ 2
              else if i = 4 then sd.roll_stdev ^ 2
              else if i = 8 then sd.azimuth_stdev ^ 2
              else imu1.orientation_covariance i }
    | none => imu1
  match s.corrimu with
  | some ci =>
      if 0 < s.imu_rate then
        { imu2 with
            angular_velocity :=
              ⟨ci.pitch_rate * (s.imu_rate : ℝ),
               ci.roll_rate * (s.imu_rate : ℝ),
               ci.yaw_rate * (s.imu_rate : ℝ)⟩
            linear_acceleration :=
              ⟨ci.lateral_acc * (s.imu_rate : ℝ),
               ci.longitudinal_acc * (s.imu_rate : ℝ),
               ci.vertical_acc * (s.imu_rate : ℝ)⟩
            angular_velocity_covariance := fun i =>
              if i = 0 ∨ i = 4 ∨ i = 8 then 1e-3
              else imu2.angular_velocity_covariance i
            linear_acceleration_covariance := fun i =>
              if i = 0 ∨ i = 4 ∨ i = 8 then 1e-3
              else imu2.linear_acceleration_covariance i }
      else sentinelCov imu2
  | none => sentinelCov imu2

/-- `INSHandler::publishImuMsg`: early-exit when the IMU publisher is
disabled; with no cached `inspva_` issue the throttled warning
(`ROS_WARN_THROTTLE(10, "INSPVA not available; ...")`, at most one log
line per 10-second wall-clock window — the window bookkeeping lives
inside the external logging macro and is represented here by the single
`warnThrottle` call-site event) and return without publishing; otherwise
publish the composed message. -/
noncomputable def publishImuMsg (cfg : PubConfig) (s : INSHandler) : List Event :=
  if cfg.imuEnabled then
    match s.inspva with
    | some pva => [Event.pubImu (composeImuMsg s pva)]
    | none => [Event.warnThrottle]
  else []

/-- `INSHandler::handleMsg`: debug-trace every arrival, then dispatch on
the message id. `INSPVAS` only caches; `INSSTDEV` caches and republishes;
`CORRIMUS`/`IMURATECORRIMUS` cache into `corrimu_`, republish, then run
`publishImuMsg` (which sees the freshly cached sample); `INSCONFIG` runs
`processInsConfigMsg`; `INSPVAX` republishes without caching. -/
noncomputable def handleMsg (p : RosParams) (cfg : PubConfig) (s : INSHandler)
    (m : Msg) : List Event × Except CppError INSHandler :=
  match m with
  | .inspva pva => ([Event.logDebug], .ok { s with inspva := some pva })
  | .insstdev sd =>
      ([Event.logDebug, Event.pubINSSTDEV sd], .ok { s with insstdev := some sd })
  | .corrimu ci =>
      ([Event.logDebug, Event.pubCORRIMU ci] ++
         publishImuMsg cfg { s with corrimu := some ci },
       .ok { s with corrimu := some ci })
  | .imuratecorrimu ci =>
      ([Event.logDebug, Event.pubCORRIMU ci] ++
         publishImuMsg cfg { s with corrimu := some ci },
       .ok { s with corrimu := some ci })
  | .insconfig c =>
      let r := processInsConfigMsg p s c
      (Event.logDebug :: r.1, r.2)
  | .inspvax x => ([Event.logDebug, Event.pubINSPVAX x], .ok s)

/-- `INSHandler::initialize` restricted to the state it touches:
`nh.getParam("imu_rate", imu_rate_)` overwrites `imu_rate_` whenever the
parameter is present (whatever its value), and the override is logged at
Info level only when the resulting rate is positive. -/
def initHandler (p : RosParams) (s : INSHandler) : INSHandler × List Event :=
  let s1 :=
    match p.imu_rate_override with
    | some v => { s with imu_rate := v }
    | none => s
  (s1, if 0 < s1.imu_rate then [Event.logInfo] else [])

/-- Run the handler over a sequence of inbound messages, accumulating the
event trace; an escaping C++ exception stops the run (it propagates out
of `handleMsg` into the host). -/
noncomputable def runMsgs (p : RosParams) (cfg : PubConfig) (s : INSHandler) :
    List Msg → List Event × Except CppError INSHandler
  | [] => ([], .ok s)
  | m :: ms =>
      let r := handleMsg p cfg s m
      match r.2 with
      | .error e => (r.1, .error e)
      | .ok s' =>
          let rest := runMsgs p cfg s' ms
          (r.1 ++ rest.1, rest.2)

/-- Whole-lifetime run: construct, initialize, then handle a message
sequence. -/
noncomputable def componentRun (p : RosParams) (cfg : PubConfig) (ms : List Msg) :
    List Event × Except CppError INSHandler :=
  runMsgs p cfg (initHandler p initState).1 ms

/-- Recognizes the event of reading the `rate` entry of the parameter
table: each execution of the automatic rate-resolution path performs
exactly one such read. -/
def isRateLookup : Event → Bool
  | .paramLookup _ n => n == "rate"
  | _ => false

/-- Number of executions of the automatic rate-resolution path visible in
a trace. -/
def rateLookupCount (evs : List Event) : ℕ :=
  evs.countP isRateLookup

/-! ## Helper lemmas -/

theorem half_mul_eq (x : ℝ) : x * 0.5 = x / 2 := by norm_num [mul_one_div]

/-- The `setRPY` formula is exactly the Hamilton product of the three
axis rotations, Z last. -/
theorem setRPY_eq_comp (r p y : ℝ) :
    setRPY r p y =
      qmul (quatAxisAngleZ y) (qmul (quatAxisAngleY p) (quatAxisAngleX r)) := by
  simp only [setRPY, qmul, quatAxisAngleX, quatAxisAngleY, quatAxisAngleZ,
    half_mul_eq]
  refine Quat.ext ?_ ?_ ?_ ?_ <;> simp <;> ring

/-- The quaternion produced by `setRPY` is a unit quaternion. -/
theorem quatNormSq_setRPY (r p y : ℝ) : quatNormSq (setRPY r p y) = 1 := by
  have hr := Real.sin_sq_add_cos_sq (r * 0.5)
  have hp := Real.sin_sq_add_cos_sq (p * 0.5)
  have hy := Real.sin_sq_add_cos_sq (y * 0.5)
  simp only [quatNormSq, setRPY]
  linear_combination
    (Real.sin (p * 0.5) ^ 2 + Real.cos (p * 0.5) ^ 2) *
        (Real.sin (y * 0.5) ^ 2 + Real.cos (y * 0.5) ^ 2) * hr +
      (Real.sin (y * 0.5) ^ 2 + Real.cos (y * 0.5) ^ 2) * hp + hy

theorem setRPY_roll_only (r : ℝ) : setRPY r 0 0 = quatAxisAngleX r := by
  simp [setRPY, quatAxisAngleX, half_mul_eq]

theorem setRPY_pitch_only (p : ℝ) : setRPY 0 p 0 = quatAxisAngleY p := by
  simp [setRPY, quatAxisAngleY, half_mul_eq]

theorem setRPY_yaw_only (y : ℝ) : setRPY 0 0 y = quatAxisAngleZ y := by
  simp [setRPY, quatAxisAngleZ, half_mul_eq]

theorem degreesToRadians_zero : degreesToRadians 0 = 0 := by
  simp [degreesToRadians]

theorem degreesToRadians_ninety : degreesToRadians 90 = Real.pi / 2 := by
  unfold degreesToRadians; ring

/-- The composed message's orientation is always the `setRPY` quaternion
of the cached attitude, whatever the rest of the state holds. -/
theorem composeImuMsg_orientation (s : INSHandler) (pva : INSPVA) :
    (composeImuMsg s pva).orientation =
      setRPY (degreesToRadians pva.roll) (-(degreesToRadians pva.pitch))
        (-(degreesToRadians pva.azimuth)) := by
  unfold composeImuMsg
  cases hsd : s.insstdev <;> cases hci : s.corrimu <;>
    simp [hsd, hci, sentinelCov] <;> split_ifs <;> rfl

/-- Orientation covariance of the composed message when a std-dev sample
is cached. -/
theorem composeImuMsg_oc_some (s : INSHandler) (pva : INSPVA) (sd : INSSTDEV)
    (h : s.insstdev = some sd) :
    (composeImuMsg s pva).orientation_covariance 0 = sd.pitch_stdev ^ 2 ∧
    (composeImuMsg s pva).orientation_covariance 4 = sd.roll_stdev ^ 2 ∧
    (composeImuMsg s pva).orientation_covariance 8 = sd.azimuth_stdev ^ 2 := by
  unfold composeImuMsg
  cases hci : s.corrimu with
  | none => simp [h, hci, sentinelCov]
  | some ci => simp [h, hci, sentinelCov]; split_ifs <;> simp

/-- Orientation covariance of the composed message stays at its default
(all-zero) value when no std-dev sample is cached. -/
theorem composeImuMsg_oc_none (s : INSHandler) (pva : INSPVA)
    (h : s.insstdev = none) :
    (composeImuMsg s pva).orientation_covariance =
      defaultImu.orientation_covariance := by
  unfold composeImuMsg
  cases hci : s.corrimu with
  | none => simp [h, hci, sentinelCov]
  | some ci => simp [h, hci, sentinelCov]; split_ifs <;> rfl

/-- Motion fields of the composed message when a corrected-IMU sample is
cached and the rate is positive. -/
theorem composeImuMsg_motion_some (s : INSHandler) (pva : INSPVA) (ci : CORRIMU)
    (h : s.corrimu = some ci) (hr : 0 < s.imu_rate) :
    (composeImuMsg s pva).angular_velocity =
      ⟨ci.pitch_rate * (s.imu_rate : ℝ), ci.roll_rate * (s.imu_rate : ℝ),
       ci.yaw_rate * (s.imu_rate : ℝ)⟩ ∧
    (composeImuMsg s pva).linear_acceleration =
      ⟨ci.lateral_acc * (s.imu_rate : ℝ), ci.longitudinal_acc * (s.imu_rate : ℝ),
       ci.vertical_acc * (s.imu_rate : ℝ)⟩ ∧
    (∀ i : Fin 9, i = 0 ∨ i = 4 ∨ i = 8 →
      (composeImuMsg s pva).angular_velocity_covariance i = 1e-3 ∧
      (composeImuMsg s pva).linear_acceleration_covariance i = 1e-3) := by
  unfold composeImuMsg
  cases hsd : s.insstdev <;> simp [h, hsd, hr]

/-- Motion fields of the composed message when the preconditions fail:
defaults everywhere except the two sentinel entries. -/
theorem composeImuMsg_motion_sentinel (s : INSHandler) (pva : INSPVA)
    (h : s.corrimu = none ∨ ¬ 0 < s.imu_rate) :
    (composeImuMsg s pva).angular_velocity = defaultImu.angular_velocity ∧
    (composeImuMsg s pva).linear_acceleration = defaultImu.linear_acceleration ∧
    (composeImuMsg s pva).angular_velocity_covariance 0 = DATA_NOT_AVAILABLE ∧
    (composeImuMsg s pva).linear_acceleration_covariance 0 = DATA_NOT_AVAILABLE ∧
    (∀ i : Fin 9, i ≠ 0 →
      (composeImuMsg s pva).angular_velocity_covariance i =
        defaultImu.angular_velocity_covariance i ∧
      (composeImuMsg s pva).linear_acceleration_covariance i =
        defaultImu.linear_acceleration_covariance i) := by
  unfold composeImuMsg
  cases hci : s.corrimu with
  | none =>
      cases hsd : s.insstdev <;>
        simp [hci, hsd, sentinelCov, defaultImu] <;>
        intro i hi <;> simp [hi]
  | some ci =>
      rcases h with h | h
      · rw [hci] at h; exact absurd h (by simp)
      · cases hsd : s.insstdev <;>
          simp [hci, hsd, h, sentinelCov, defaultImu] <;>
          intro i hi <;> simp [hi]

/-- Publishing the composed Imu message never reads the parameter table. -/
theorem publishImuMsg_no_rate_lookup (cfg : PubConfig) (s : INSHandler) :
    rateLookupCount (publishImuMsg cfg s) = 0 := by
  unfold publishImuMsg rateLookupCount
  cases cfg.imuEnabled <;> simp
  cases s.inspva <;> simp [isRateLookup]

/-- With a non-zero rate, handling any message reads no rate parameter
and succeeds with the rate unchanged. -/
theorem handleMsg_rate_stable (p : RosParams) (cfg : PubConfig) (s : INSHandler)
    (m : Msg) (h : s.imu_rate ≠ 0) :
    rateLookupCount (handleMsg p cfg s m).1 = 0 ∧
    ∃ s', (handleMsg p cfg s m).2 = Except.ok s' ∧ s'.imu_rate = s.imu_rate := by
  cases m with
  | inspva pva => exact ⟨by simp [handleMsg, rateLookupCount, isRateLookup], _, rfl, rfl⟩
  | insstdev sd => exact ⟨by simp [handleMsg, rateLookupCount, isRateLookup], _, rfl, rfl⟩
  | corrimu ci =>
      refine ⟨?_, _, rfl, rfl⟩
      have hp := publishImuMsg_no_rate_lookup cfg { s with corrimu := some ci }
      simp [handleMsg, rateLookupCount, isRateLookup, List.countP_append] at hp ⊢
      simpa [rateLookupCount] using hp
  | imuratecorrimu ci =>
      refine ⟨?_, _, rfl, rfl⟩
      have hp := publishImuMsg_no_rate_lookup cfg { s with corrimu := some ci }
      simp [handleMsg, rateLookupCount, isRateLookup, List.countP_append] at hp ⊢
      simpa [rateLookupCount] using hp
  | insconfig c =>
      simp [handleMsg, processInsConfigMsg, h, rateLookupCount, isRateLookup]
  | inspvax x => exact ⟨by simp [handleMsg, rateLookupCount, isRateLookup], _, rfl, rfl⟩

/-- Unfolding equation for `runMsgs` on a non-empty message list. -/
theorem runMsgs_cons (p : RosParams) (cfg : PubConfig) (s : INSHandler)
    (m : Msg) (ms : List Msg) :
    runMsgs p cfg s (m :: ms) =
      match (handleMsg p cfg s m).2 with
      | .error e => ((handleMsg p cfg s m).1, .error e)
      | .ok s' =>
          ((handleMsg p cfg s m).1 ++ (runMsgs p cfg s' ms).1,
           (runMsgs p cfg s' ms).2) := rfl

/-- With a non-zero rate, no run of any message sequence ever reads a
rate parameter. -/
theorem runMsgs_no_rate_lookup (p : RosParams) (cfg : PubConfig) (ms : List Msg)
    (s : INSHandler) (h : s.imu_rate ≠ 0) :
    rateLookupCount (runMsgs p cfg s ms).1 = 0 := by
  induction ms generalizing s with
  | nil => simp [runMsgs, rateLookupCount]
  | cons m ms ih =>
      obtain ⟨h1, s', h2, h3⟩ := handleMsg_rate_stable p cfg s m h
      rw [runMsgs_cons, h2]
      simp only [rateLookupCount, List.countP_append]
      have := ih s' (h3 ▸ h)
      simp only [rateLookupCount] at h1 this
      omega

/-- With `imu_rate_ = 0`, handling an `INSCONFIG` message performs exactly
one read of a `rate` parameter (whether or not the conversion then
throws). -/
theorem handleMsg_insconfig_one_lookup (p : RosParams) (cfg : PubConfig)
    (s : INSHandler) (c : INSCONFIG) (h : s.imu_rate = 0) :
    rateLookupCount (handleMsg p cfg s (Msg.insconfig c)).1 = 1 := by
  unfold handleMsg processInsConfigMsg getImuRate getImuParam
  cases hn : p.imuParam c.imu_type "name" <;>
    cases hr : p.imuParam c.imu_type "rate" <;>
      simp only [h, hn, hr, if_pos] <;>
        split <;>
          (simp [rateLookupCount, isRateLookup, apply_ite isRateLookup] <;>
            split_ifs <;> rfl)

/-! ## Concrete data used by witnesses and counterexamples -/

/-- Publisher configuration with the IMU output enabled. -/
def cfgOn : PubConfig := ⟨true⟩

/-- Parameter server with no `supported_imus` table and no rate
override. -/
def noParams : RosParams := ⟨fun _ _ => none, none⟩

/-- Parameter server whose `supported_imus` table resolves every IMU type
to rate string "0" (a resolvable but zero rate). -/
def zeroRateParams : RosParams :=
  ⟨fun _ n => if n = "rate" then some "0" else some "IMU", none⟩

/-- Parameter server supplying a negative `imu_rate` override. -/
def negOverrideParams : RosParams := ⟨fun _ _ => none, some (-5)⟩

/-! ## Claims -/

/-- C1: for every state with no cached INSPVA, handling a CorrectedImu or
RateCorrectedImu message emits no derived Imu output at all — the handler
publishes only the CORRIMU passthrough (plus the per-arrival debug trace)
and, when the IMU output is enabled, issues the single throttled-warning
call; once an attitude sample is cached, every corrected-IMU arrival with
the IMU output enabled publishes an Imu message whose orientation is
populated from the cached attitude via `setRPY`. -/
theorem C1_no_imu_output_without_inspva (p : RosParams) (cfg : PubConfig)
    (s : INSHandler) (ci : CORRIMU) :
    (s.inspva = none →
      (handleMsg p cfg s (Msg.corrimu ci)).1 =
        [Event.logDebug, Event.pubCORRIMU ci] ++
          (if cfg.imuEnabled then [Event.warnThrottle] else []) ∧
      (handleMsg p cfg s (Msg.imuratecorrimu ci)).1 =
        [Event.logDebug, Event.pubCORRIMU ci] ++
          (if cfg.imuEnabled then [Event.warnThrottle] else [])) ∧
    (∀ pva, s.inspva = some pva → cfg.imuEnabled = true →
      (handleMsg p cfg s (Msg.corrimu ci)).1 =
        [Event.logDebug, Event.pubCORRIMU ci,
         Event.pubImu (composeImuMsg { s with corrimu := some ci } pva)] ∧
      (handleMsg p cfg s (Msg.imuratecorrimu ci)).1 =
        [Event.logDebug, Event.pubCORRIMU ci,
         Event.pubImu (composeImuMsg { s with corrimu := some ci } pva)] ∧
      (composeImuMsg { s with corrimu := some ci } pva).orientation =
        setRPY (degreesToRadians pva.roll) (-(degreesToRadians pva.pitch))
          (-(degreesToRadians pva.azimuth))) := by
  constructor
  · intro h
    constructor <;> simp [handleMsg, publishImuMsg, h]
  · intro pva h he
    refine ⟨?_, ?_, composeImuMsg_orientation _ _⟩ <;>
      simp [handleMsg, publishImuMsg, h, he]

theorem C1_witness :
    ((initState : INSHandler).inspva = none ∧
      (handleMsg noParams cfgOn initState (Msg.corrimu ⟨1, 2, 3, 4, 5, 6⟩)).1 =
        [Event.logDebug, Event.pubCORRIMU ⟨1, 2, 3, 4, 5, 6⟩] ++
          (if cfgOn.imuEnabled then [Event.warnThrottle] else [])) ∧
    (handleMsg noParams cfgOn { initState with inspva := some ⟨90, 0, 0⟩ }
        (Msg.corrimu ⟨1, 2, 3, 4, 5, 6⟩)).1 =
      [Event.logDebug, Event.pubCORRIMU ⟨1, 2, 3, 4, 5, 6⟩,
       Event.pubImu (composeImuMsg
         { initState with inspva := some ⟨90, 0, 0⟩, corrimu := some ⟨1, 2, 3, 4, 5, 6⟩ }
         ⟨90, 0, 0⟩)] := by
  refine ⟨⟨rfl, ?_⟩, ?_⟩
  · exact ((C1_no_imu_output_without_inspva noParams cfgOn initState
      ⟨1, 2, 3, 4, 5, 6⟩).1 rfl).1
  · exact ((C1_no_imu_output_without_inspva noParams cfgOn
      { initState with inspva := some ⟨90, 0, 0⟩ }
      ⟨1, 2, 3, 4, 5, 6⟩).2 ⟨90, 0, 0⟩ rfl rfl).1

/-- C5: the derived output's orientation quaternion is exactly the unit
quaternion composing rotation about X by roll, about Y by minus pitch and
about Z by minus azimuth (degrees converted to radians); in particular
roll=90°, pitch=0°, azimuth=0° gives a 90° rotation about X, pitch=90°
alone gives a −90° rotation about Y and azimuth=90° alone gives a −90°
rotation about Z. -/
theorem C5_orientation_rotation_composition (s : INSHandler) (pva : INSPVA) :
    (composeImuMsg s pva).orientation =
      qmul (quatAxisAngleZ (-(degreesToRadians pva.azimuth)))
        (qmul (quatAxisAngleY (-(degreesToRadians pva.pitch)))
          (quatAxisAngleX (degreesToRadians pva.roll))) ∧
    quatNormSq (composeImuMsg s pva).orientation = 1 ∧
    (composeImuMsg s ⟨90, 0, 0⟩).orientation = quatAxisAngleX (Real.pi / 2) ∧
    (composeImuMsg s ⟨0, 90, 0⟩).orientation = quatAxisAngleY (-(Real.pi / 2)) ∧
    (composeImuMsg s ⟨0, 0, 90⟩).orientation = quatAxisAngleZ (-(Real.pi / 2)) := by
  refine ⟨?_, ?_, ?_, ?_, ?_⟩
  · rw [composeImuMsg_orientation]; exact setRPY_eq_comp _ _ _
  · rw [composeImuMsg_orientation]; exact quatNormSq_setRPY _ _ _
  · rw [composeImuMsg_orientation]
    simp only [degreesToRadians_zero, neg_zero, degreesToRadians_ninety]
    exact setRPY_roll_only _
  · rw [composeImuMsg_orientation]
    simp only [degreesToRadians_zero, neg_zero, degreesToRadians_ninety]
    exact setRPY_pitch_only _
  · rw [composeImuMsg_orientation]
    simp only [degreesToRadians_zero, neg_zero, degreesToRadians_ninety]
    exact setRPY_yaw_only _

/-- C6: with a cached std-dev sample the orientation covariance diagonal
is (pitch σ)², (roll σ)², (azimuth σ)² at positions 0, 4, 8 — pitch,
roll, yaw diagonal order; with no cached sample the orientation
covariance stays at its default (all-zero) value. -/
theorem C6_orientation_covariance_cross_mapping (s : INSHandler) (pva : INSPVA) :
    (∀ sd, s.insstdev = some sd →
      (composeImuMsg s pva).orientation_covariance 0 = sd.pitch_stdev ^ 2 ∧
      (composeImuMsg s pva).orientation_covariance 4 = sd.roll_stdev ^ 2 ∧
      (composeImuMsg s pva).orientation_covariance 8 = sd.azimuth_stdev ^ 2) ∧
    (s.insstdev = none →
      (composeImuMsg s pva).orientation_covariance =
        defaultImu.orientation_covariance) :=
  ⟨fun sd h => composeImuMsg_oc_some s pva sd h,
   fun h => composeImuMsg_oc_none s pva h⟩

theorem C6_witness :
    (composeImuMsg { initState with insstdev := some ⟨0.1, 0.2, 0.3⟩ }
      ⟨0, 0, 0⟩).orientation_covariance 0 = 0.01 ∧
    (composeImuMsg { initState with insstdev := some ⟨0.1, 0.2, 0.3⟩ }
      ⟨0, 0, 0⟩).orientation_covariance 4 = 0.04 ∧
    (composeImuMsg { initState with insstdev := some ⟨0.1, 0.2, 0.3⟩ }
      ⟨0, 0, 0⟩).orientation_covariance 8 = 0.09 := by
  obtain ⟨h0, h4, h8⟩ :=
    (C6_orientation_covariance_cross_mapping
      { initState with insstdev := some ⟨0.1, 0.2, 0.3⟩ } ⟨0, 0, 0⟩).1
      ⟨0.1, 0.2, 0.3⟩ rfl
  refine ⟨?_, ?_, ?_⟩
  · rw [h0]; norm_num
  · rw [h4]; norm_num
  · rw [h8]; norm_num

/-- C7: with a cached corrected-IMU sample and a positive rate, angular
velocity is (pitch rate, roll rate, yaw rate) × rate on (X, Y, Z), linear
acceleration is (lateral, longitudinal, vertical) × rate on (X, Y, Z),
and all six motion covariance diagonal entries equal 1e-3. -/
theorem C7_motion_scaled_by_rate (s : INSHandler) (pva : INSPVA) (ci : CORRIMU)
    (h : s.corrimu = some ci) (hr : 0 < s.imu_rate) :
    (composeImuMsg s pva).angular_velocity =
      ⟨ci.pitch_rate * (s.imu_rate : ℝ), ci.roll_rate * (s.imu_rate : ℝ),
       ci.yaw_rate * (s.imu_rate : ℝ)⟩ ∧
    (composeImuMsg s pva).linear_acceleration =
      ⟨ci.lateral_acc * (s.imu_rate : ℝ), ci.longitudinal_acc * (s.imu_rate : ℝ),
       ci.vertical_acc * (s.imu_rate : ℝ)⟩ ∧
    (composeImuMsg s pva).angular_velocity_covariance 0 = 1e-3 ∧
    (composeImuMsg s pva).angular_velocity_covariance 4 = 1e-3 ∧
    (composeImuMsg s pva).angular_velocity_covariance 8 = 1e-3 ∧
    (composeImuMsg s pva).linear_acceleration_covariance 0 = 1e-3 ∧
    (composeImuMsg s pva).linear_acceleration_covariance 4 = 1e-3 ∧
    (composeImuMsg s pva).linear_acceleration_covariance 8 = 1e-3 := by
  obtain ⟨h1, h2, h3⟩ := composeImuMsg_motion_some s pva ci h hr
  exact ⟨h1, h2, (h3 0 (Or.inl rfl)).1, (h3 4 (Or.inr (Or.inl rfl))).1,
    (h3 8 (Or.inr (Or.inr rfl))).1, (h3 0 (Or.inl rfl)).2,
    (h3 4 (Or.inr (Or.inl rfl))).2, (h3 8 (Or.inr (Or.inr rfl))).2⟩

theorem C7_witness :
    (composeImuMsg
      { inspva := some ⟨0, 0, 0⟩, corrimu := some ⟨1, 2, 3, 4, 5, 6⟩,
        insstdev := none, imu_rate := 100 } ⟨0, 0, 0⟩).angular_velocity =
      ⟨100, 200, 300⟩ ∧
    (composeImuMsg
      { inspva := some ⟨0, 0, 0⟩, corrimu := some ⟨1, 2, 3, 4, 5, 6⟩,
        insstdev := none, imu_rate := 100 } ⟨0, 0, 0⟩).linear_acceleration =
      ⟨400, 500, 600⟩ ∧
    (composeImuMsg
      { inspva := some ⟨0, 0, 0⟩, corrimu := some ⟨1, 2, 3, 4, 5, 6⟩,
        insstdev := none, imu_rate := 100 } ⟨0, 0, 0⟩).angular_velocity_covariance 0 =
      1e-3 := by
  obtain ⟨h1, h2, h3, -⟩ :=
    C7_motion_scaled_by_rate
      { inspva := some ⟨0, 0, 0⟩, corrimu := some ⟨1, 2, 3, 4, 5, 6⟩,
        insstdev := none, imu_rate := 100 } ⟨0, 0, 0⟩ ⟨1, 2, 3, 4, 5, 6⟩
      rfl (by decide)
  refine ⟨?_, ?_, h3⟩
  · rw [h1]; refine Vector3.ext ?_ ?_ ?_ <;> push_cast <;> norm_num
  · rw [h2]; refine Vector3.ext ?_ ?_ ?_ <;> push_cast <;> norm_num

/-- C8: when no corrected-IMU sample is cached or the rate is not
positive, the motion fields stay at their default values and only entry 0
of each motion covariance row is set, to the −1.0 sentinel. -/
theorem C8_motion_sentinel_fill (s : INSHandler) (pva : INSPVA)
    (h : s.corrimu = none ∨ ¬ 0 < s.imu_rate) :
    (composeImuMsg s pva).angular_velocity = defaultImu.angular_velocity ∧
    (composeImuMsg s pva).linear_acceleration = defaultImu.linear_acceleration ∧
    (composeImuMsg s pva).angular_velocity_covariance 0 = DATA_NOT_AVAILABLE ∧
    (composeImuMsg s pva).linear_acceleration_covariance 0 = DATA_NOT_AVAILABLE ∧
    DATA_NOT_AVAILABLE = -1 ∧
    (∀ i : Fin 9, i ≠ 0 →
      (composeImuMsg s pva).angular_velocity_covariance i =
        defaultImu.angular_velocity_covariance i ∧
      (composeImuMsg s pva).linear_acceleration_covariance i =
        defaultImu.linear_acceleration_covariance i) := by
  obtain ⟨h1, h2, h3, h4, h5⟩ := composeImuMsg_motion_sentinel s pva h
  exact ⟨h1, h2, h3, h4, by norm_num [DATA_NOT_AVAILABLE], h5⟩

theorem C8_witness :
    (composeImuMsg
      { inspva := some ⟨0, 0, 0⟩, corrimu := some ⟨1, 2, 3, 4, 5, 6⟩,
        insstdev := none, imu_rate := 0 } ⟨0, 0, 0⟩).angular_velocity_covariance 0 =
      DATA_NOT_AVAILABLE ∧
    (composeImuMsg
      { inspva := some ⟨0, 0, 0⟩, corrimu := some ⟨1, 2, 3, 4, 5, 6⟩,
        insstdev := none, imu_rate := 0 } ⟨0, 0, 0⟩).linear_acceleration_covariance 0 =
      DATA_NOT_AVAILABLE ∧
    (composeImuMsg
      { inspva := some ⟨0, 0, 0⟩, corrimu := some ⟨1, 2, 3, 4, 5, 6⟩,
        insstdev := none, imu_rate := 0 } ⟨0, 0, 0⟩).angular_velocity =
      defaultImu.angular_velocity := by
  obtain ⟨h1, -, h3, h4, -⟩ :=
    C8_motion_sentinel_fill
      { inspva := some ⟨0, 0, 0⟩, corrimu := some ⟨1, 2, 3, 4, 5, 6⟩,
        insstdev := none, imu_rate := 0 } ⟨0, 0, 0⟩ (Or.inr (by decide))
  exact ⟨h3, h4, h1⟩

/-- C9: once `imu_rate_` is non-zero, handling any message leaves it
unchanged. -/
theorem C9_nonzero_rate_stable (p : RosParams) (cfg : PubConfig)
    (s s' : INSHandler) (m : Msg) (h : s.imu_rate ≠ 0)
    (h2 : (handleMsg p cfg s m).2 = Except.ok s') :
    s'.imu_rate = s.imu_rate := by
  obtain ⟨-, s'', hs'', heq⟩ := handleMsg_rate_stable p cfg s m h
  rw [h2] at hs''
  obtain rfl : s' = s'' := by simpa using hs''
  exact heq

theorem C9_witness :
    ({ initState with imu_rate := 100 } : INSHandler).imu_rate ≠ 0 ∧
    (handleMsg noParams cfgOn { initState with imu_rate := 100 }
        (Msg.insconfig ⟨1⟩)).2 =
      Except.ok { initState with imu_rate := 100 } ∧
    ({ initState with imu_rate := 100 } : INSHandler).imu_rate =
      ({ initState with imu_rate := 100 } : INSHandler).imu_rate := by
  refine ⟨by decide, rfl, ?_⟩
  exact C9_nonzero_rate_stable noParams cfgOn
    { initState with imu_rate := 100 } { initState with imu_rate := 100 }
    (Msg.insconfig ⟨1⟩) (by decide) rfl

/-- C10: handling a CorrectedImu or RateCorrectedImu message overwrites
only the cached corrected-IMU sample; the cached attitude, the cached
std-dev sample and the rate are untouched. -/
theorem C10_corrimu_frame_effect (p : RosParams) (cfg : PubConfig)
    (s : INSHandler) (ci : CORRIMU) :
    (handleMsg p cfg s (Msg.corrimu ci)).2 =
      Except.ok { s with corrimu := some ci } ∧
    (handleMsg p cfg s (Msg.imuratecorrimu ci)).2 =
      Except.ok { s with corrimu := some ci } ∧
    ({ s with corrimu := some ci } : INSHandler).inspva = s.inspva ∧
    ({ s with corrimu := some ci } : INSHandler).insstdev = s.insstdev ∧
    ({ s with corrimu := some ci } : INSHandler).imu_rate = s.imu_rate :=
  ⟨rfl, rfl, rfl, rfl, rfl⟩

/-- C2 counterexample: with a parameter table that resolves the IMU type
to rate 0, two successive INSCONFIG arrivals in one component lifetime
each execute the rate-resolution lookup — the resolution demonstrably
repeats after a failed (resolved-0) first attempt, so it does not execute
at most once. -/
theorem C2_counterexample :
    rateLookupCount
        (componentRun zeroRateParams cfgOn
          [Msg.insconfig ⟨1⟩, Msg.insconfig ⟨1⟩]).1 = 2 ∧
    ¬ rateLookupCount
        (componentRun zeroRateParams cfgOn
          [Msg.insconfig ⟨1⟩, Msg.insconfig ⟨1⟩]).1 ≤ 1 := by
  constructor <;> decide

/-- C2 amended: the rate resolution runs exactly on the INSCONFIG
arrivals handled while `imu_rate_` is still 0. Once the rate is non-zero
no message ever triggers a lookup again; with a positive initialization
override no lookup happens during the whole lifetime; and while the rate
is 0, each INSCONFIG arrival performs exactly one resolution. -/
theorem C2_resolution_while_rate_zero :
    (∀ (p : RosParams) (cfg : PubConfig) (s : INSHandler) (m : Msg),
        s.imu_rate ≠ 0 → rateLookupCount (handleMsg p cfg s m).1 = 0) ∧
    (∀ (p : RosParams) (cfg : PubConfig) (ms : List Msg) (v : ℤ),
        p.imu_rate_override = some v → 0 < v →
        rateLookupCount (componentRun p cfg ms).1 = 0) ∧
    (∀ (p : RosParams) (cfg : PubConfig) (s : INSHandler) (c : INSCONFIG),
        s.imu_rate = 0 →
        rateLookupCount (handleMsg p cfg s (Msg.insconfig c)).1 = 1) := by
  refine ⟨fun p cfg s m h => (handleMsg_rate_stable p cfg s m h).1, ?_,
    fun p cfg s c h => handleMsg_insconfig_one_lookup p cfg s c h⟩
  intro p cfg ms v hov hpos
  unfold componentRun
  apply runMsgs_no_rate_lookup
  simp [initHandler, hov]
  omega

theorem C2_witness :
    rateLookupCount
        (handleMsg noParams cfgOn { initState with imu_rate := 100 }
          (Msg.inspvax ⟨0⟩)).1 = 0 ∧
    rateLookupCount
        (componentRun ⟨fun _ _ => none, some 125⟩ cfgOn
          [Msg.insconfig ⟨1⟩, Msg.insconfig ⟨1⟩]).1 = 0 ∧
    rateLookupCount
        (handleMsg noParams cfgOn initState (Msg.insconfig ⟨1⟩)).1 = 1 := by
  refine ⟨?_, ?_, ?_⟩
  · exact C2_resolution_while_rate_zero.1 noParams cfgOn
      { initState with imu_rate := 100 } (Msg.inspvax ⟨0⟩) (by decide)
  · exact C2_resolution_while_rate_zero.2.1 ⟨fun _ _ => none, some 125⟩ cfgOn
      [Msg.insconfig ⟨1⟩, Msg.insconfig ⟨1⟩] 125 rfl (by decide)
  · exact C2_resolution_while_rate_zero.2.2 noParams cfgOn initState ⟨1⟩ rfl

/-- C3 counterexample: a supplied override of −5 is not ignored — it is
stored into `imu_rate_`, which therefore does not stay 0. -/
theorem C3_counterexample :
    (initHandler negOverrideParams initState).1.imu_rate = -5 ∧
    ¬ (initHandler negOverrideParams initState).1.imu_rate = 0 := by
  constructor <;> decide

/-- C3 amended: `initialize` stores whatever override value is supplied
(the parameter read assigns unconditionally); only a resulting positive
rate is logged as an override; with no supplied override the rate stays
0; and any supplied non-zero value — positive or negative — prevents the
automatic derivation from a later INSCONFIG message, whose guard requires
the rate to be exactly 0. -/
theorem C3_override_stored_unconditionally (p : RosParams) :
    (∀ v, p.imu_rate_override = some v →
      (initHandler p initState).1.imu_rate = v ∧
      (initHandler p initState).2 = if 0 < v then [Event.logInfo] else []) ∧
    (p.imu_rate_override = none → (initHandler p initState).1.imu_rate = 0) ∧
    (∀ v, p.imu_rate_override = some v → v ≠ 0 →
      ∀ (cfg : PubConfig) (c : INSCONFIG),
        rateLookupCount
          (handleMsg p cfg (initHandler p initState).1 (Msg.insconfig c)).1 = 0) := by
  refine ⟨?_, ?_, ?_⟩
  · intro v hov
    constructor <;> simp [initHandler, hov]
  · intro h
    simp [initHandler, h, initState]
  · intro v hov hvne cfg c
    apply (handleMsg_rate_stable p cfg _ _ _).1
    simp [initHandler, hov]
    exact hvne

theorem C3_witness :
    (initHandler negOverrideParams initState).1.imu_rate = -5 ∧
    (initHandler negOverrideParams initState).2 = [] ∧
    rateLookupCount
        (handleMsg negOverrideParams cfgOn (initHandler negOverrideParams initState).1
          (Msg.insconfig ⟨1⟩)).1 = 0 := by
  obtain ⟨h1, h2⟩ :=
    (C3_override_stored_unconditionally negOverrideParams).1 (-5) rfl
  refine ⟨h1, ?_, ?_⟩
  · rw [h2]; norm_num
  · exact (C3_override_stored_unconditionally negOverrideParams).2.2 (-5) rfl
      (by decide) cfgOn ⟨1⟩

/-- C4 counterexample: for an IMU type absent from the parameter table
the lookup failure is fatal, not merely logged at error level — the rate
string stays empty, `std::stoi` throws `std::invalid_argument`, and the
exception propagates out of `handleMsg`; the log call that does happen is
at fatal level, and no error-level log is produced. -/
theorem C4_counterexample :
    (handleMsg noParams cfgOn initState (Msg.insconfig ⟨7⟩)).2 =
      Except.error CppError.invalidArgument ∧
    Event.logFatal ∈ (handleMsg noParams cfgOn initState (Msg.insconfig ⟨7⟩)).1 ∧
    Event.logError ∉ (handleMsg noParams cfgOn initState (Msg.insconfig ⟨7⟩)).1 := by
  refine ⟨rfl, ?_, ?_⟩ <;>
    simp [handleMsg, processInsConfigMsg, getImuRate, getImuParam, noParams,
      initState, stoi]

/-- C4 amended: a lookup that finds the IMU type but resolves its rate to
0 is non-fatal — the handler logs at error level, returns normally with
`imu_rate_` still 0, and rate-dependent outputs then carry the
not-available sentinel; only an IMU type missing from the table makes the
conversion throw. -/
theorem C4_resolved_zero_rate_nonfatal (p : RosParams) (cfg : PubConfig)
    (s : INSHandler) (c : INSCONFIG) (str : String)
    (h0 : s.imu_rate = 0)
    (hrate : p.imuParam c.imu_type "rate" = some str)
    (hz : stoi str = Except.ok 0) :
    (handleMsg p cfg s (Msg.insconfig c)).2 = Except.ok { s with imu_rate := 0 } ∧
    Event.logError ∈ (handleMsg p cfg s (Msg.insconfig c)).1 ∧
    (∀ pva,
      (composeImuMsg { s with imu_rate := 0 } pva).angular_velocity_covariance 0 =
        DATA_NOT_AVAILABLE ∧
      (composeImuMsg { s with imu_rate := 0 } pva).linear_acceleration_covariance 0 =
        DATA_NOT_AVAILABLE) := by
  refine ⟨?_, ?_, ?_⟩
  · unfold handleMsg processInsConfigMsg getImuRate getImuParam
    cases hn : p.imuParam c.imu_type "name" <;> simp [h0, hn, hrate, hz]
  · unfold handleMsg processInsConfigMsg getImuRate getImuParam
    cases hn : p.imuParam c.imu_type "name" <;> simp [h0, hn, hrate, hz]
  · intro pva
    obtain ⟨-, -, h3, h4, -⟩ :=
      composeImuMsg_motion_sentinel { s with imu_rate := 0 } pva
        (Or.inr (by simp))
    exact ⟨h3, h4⟩

theorem C4_witness :
    (handleMsg zeroRateParams cfgOn initState (Msg.insconfig ⟨1⟩)).2 =
      Except.ok { initState with imu_rate := 0 } ∧
    Event.logError ∈ (handleMsg zeroRateParams cfgOn initState (Msg.insconfig ⟨1⟩)).1 := by
  obtain ⟨h1, h2, -⟩ :=
    C4_resolved_zero_rate_nonfatal zeroRateParams cfgOn initState ⟨1⟩ "0"
      rfl rfl rfl
  exact ⟨h1, h2⟩

end NovatelOem7
